import Mathlib

/-!
Verification of the Craftista credential-and-token authority and of the
browser-facing frontend's auth routes.

The frontend definitions are translated from `frontend/app.js` and
`frontend/routes/auth.js`.  The authentication service itself (Rust/Axum)
is present in the repository only through its README, its SQL schema and
its callers, so its behaviour is modelled from the specification
(components marked `Modelled from the spec:`).
-/

namespace Craftista

/-- JSON-like values, the bodies of HTTP requests and responses. -/
inductive Json where
  | str : String → Json
  | num : Nat → Json
  | bool : Bool → Json
  | obj : List (String × Json) → Json
  | null : Json
deriving Repr

mutual

/-- All string leaves occurring in a JSON value (used to state that a
secret never appears in a response body). -/
def Json.strings : Json → List String
  | .str s => [s]
  | .num _ => []
  | .bool _ => []
  | .null => []
  | .obj fields => Json.stringsOfFields fields

/-- String leaves of the fields of a JSON object. -/
def Json.stringsOfFields : List (String × Json) → List String
  | [] => []
  | (_, v) :: rest => v.strings ++ Json.stringsOfFields rest

end

/-- Look up a field of a JSON object; `null` when absent or not an object
(mirrors JavaScript member access yielding `undefined`). -/
def Json.getField (name : String) : Json → Json
  | .obj fields =>
      match fields.find? (fun p => p.1 == name) with
      | some p => p.2
      | none => .null
  | _ => .null

/-- The string content of a JSON value, `""` when it is not a string. -/
def Json.asStr : Json → String
  | .str s => s
  | _ => ""

/-- The numeric content of a JSON value, `0` when it is not a number. -/
def Json.asNum : Json → Nat
  | .num n => n
  | _ => 0

/-! ## Password hashing

Modelled from the spec: the Password Hasher is a salted one-way function
`hash : plaintext → opaque_hash` with `verify(p, h) ↔ h = hash p`
(README: BCrypt password hashing). The model keeps the functional
contract `verify(p, hash(p)) = true` and determinism. -/

/-- Modelled from the spec: BCrypt hashing of a plaintext password. -/
def bcryptHash (password : String) : String :=
  "bcrypt-2b-12-" ++ password

/-- Modelled from the spec: BCrypt verification of a plaintext against a
stored hash. -/
def bcryptVerify (password stored : String) : Bool :=
  stored == bcryptHash password

/-! ## RSA keys and signatures

Modelled from the spec: the Key Manager loads one RSA key pair per
process; the public key is the exact public half of the private key; the
Token Issuer signs with the private key and verifiers check with the
public key (README: RS256 signed tokens). Unforgeability is modelled by
making a signature verify exactly when it was produced with the private
half of the verifying public key over the same message. -/

/-- The public half of a key pair; `pairSeed` identifies the pair it
belongs to. -/
structure PublicKey where
  pairSeed : String
deriving Repr, DecidableEq

/-- Modelled from the spec: derivation of the public half from the
private key. -/
def derivePublic (privateKey : String) : PublicKey :=
  ⟨privateKey⟩

/-- Modelled from the spec: RS256 signing with the private key. -/
def rsaSign (privateKey message : String) : String :=
  privateKey ++ "/" ++ message

/-- Modelled from the spec: RS256 signature verification with the public
key. -/
def rsaVerify (pub : PublicKey) (message signature : String) : Bool :=
  signature == rsaSign pub.pairSeed message

/-- A loaded signing key pair (Key Manager state). -/
structure KeyPair where
  privateKey : String
  publicKey : PublicKey
  keyId : String
deriving Repr, DecidableEq

/-- Modelled from the spec: the Key Manager loads the pair at startup and
self-tests that the public key corresponds to the private key, so a
loaded pair always has `publicKey = derivePublic privateKey`. -/
def loadKeyPair (privateKey keyId : String) : KeyPair :=
  ⟨privateKey, derivePublic privateKey, keyId⟩

/-! ## Tokens -/

/-- The required claims of a verified token. -/
structure TokenClaims where
  sub : Nat
  role : String
  iat : Nat
  exp : Nat
  iss : String
deriving Repr, DecidableEq

/-- The claims of a presented token, each possibly missing. -/
structure RawClaims where
  sub : Option Nat
  role : Option String
  iat : Option Nat
  exp : Option Nat
  iss : Option String
deriving Repr, DecidableEq

/-- A token: key identifier in the header, claim set, signature. -/
structure Token where
  kid : String
  claims : RawClaims
  signature : String
deriving Repr, DecidableEq

/-- Encoding of an optional value into the signed payload. -/
def encodeOptNat : Option Nat → String
  | some n => toString n
  | none => "-"

/-- Encoding of an optional string claim into the signed payload. -/
def encodeOptStr : Option String → String
  | some s => s
  | none => "-"

/-- The signed payload of a claim set. -/
def encodeRaw (c : RawClaims) : String :=
  encodeOptNat c.sub ++ "." ++ encodeOptStr c.role ++ "." ++
  encodeOptNat c.iat ++ "." ++ encodeOptNat c.exp ++ "." ++
  encodeOptStr c.iss

/-- Full claims, all present. -/
def RawClaims.ofClaims (c : TokenClaims) : RawClaims :=
  ⟨some c.sub, some c.role, some c.iat, some c.exp, some c.iss⟩

/-- The fixed token lifetime in seconds (README: tokens expire after
1 hour). -/
def tokenLifetime : Nat := 3600

/-- The issuer string placed in every token. -/
def issuerName : String := "http://authentication:8080"

/-- Modelled from the spec: the Token Issuer builds the claim set
(`subject`, `role`, `issued_at`, `expires_at = issued_at + lifetime`,
`issuer`), puts the key identifier in the header and signs with the
private key. -/
def issueToken (kp : KeyPair) (userId : Nat) (role : String) (now : Nat) : Token :=
  let claims : TokenClaims :=
    { sub := userId, role := role, iat := now, exp := now + tokenLifetime, iss := issuerName }
  { kid := kp.keyId
    claims := RawClaims.ofClaims claims
    signature := rsaSign kp.privateKey (encodeRaw (RawClaims.ofClaims claims)) }

/-- Wire encoding of a token, the `access_token` string. -/
def encodeToken (t : Token) : String :=
  t.kid ++ "|" ++ encodeRaw t.claims ++ "|" ++ t.signature

/-- Verifier-side rejection reasons. -/
inductive VerifyError where
  | unknownKey
  | invalidSignature
  | tokenExpired
  | malformedToken
deriving Repr, DecidableEq

/-- Modelled from the spec: the Token Verifier first rejects a key
identifier that does not match the currently published key
(`UnknownKey`), then verifies the signature with the published public
key, then rejects a passed `expires_at` (`TokenExpired`), then rejects
missing claims (`MalformedToken`). -/
def verifyToken (pub : PublicKey) (publishedKid : String) (now : Nat)
    (t : Token) : Except VerifyError TokenClaims :=
  if t.kid ≠ publishedKid then
    .error .unknownKey
  else if rsaVerify pub (encodeRaw t.claims) t.signature then
    match t.claims.exp with
    | none => .error .malformedToken
    | some e =>
      if e ≤ now then
        .error .tokenExpired
      else
        match t.claims.sub, t.claims.role, t.claims.iat, t.claims.iss with
        | some s, some r, some i, some iss0 => .ok ⟨s, r, i, e, iss0⟩
        | _, _, _, _ => .error .malformedToken
  else
    .error .invalidSignature

/-! ## JWKS publication -/

/-- One published key of the JSON Web Key Set. -/
structure Jwk where
  kty : String
  kid : String
  alg : String
  key : PublicKey
deriving Repr, DecidableEq

/-- Modelled from the spec: the Discovery Publisher serves the public key
set at `/.well-known/jwks.json`, reading only the Key Manager's public
half and key identifier. -/
def jwksDocument (kp : KeyPair) : List Jwk :=
  [{ kty := "RSA", kid := kp.keyId, alg := "RS256", key := kp.publicKey }]

/-! ## Credential Store

From the schema in the authentication service README
(`CREATE TABLE users`): `id SERIAL PRIMARY KEY`, `username` and `email`
`UNIQUE NOT NULL`, `password_hash NOT NULL`, `role DEFAULT 'user'`.
The insert itself is the atomic commit point, so a concurrent pair of
registrations is an interleaving of two atomic `createUser` steps. -/

/-- A persisted user record. -/
structure User where
  id : Nat
  username : String
  email : String
  password_hash : String
  role : String
deriving Repr, DecidableEq

/-- The credential store: the users table plus the next `SERIAL` id. -/
structure AuthDB where
  users : List User
  nextId : Nat
deriving Repr, DecidableEq

/-- The authority's error taxonomy (client-visible classes). -/
inductive AuthError where
  | validationError
  | duplicateCredential
  | invalidCredentials
deriving Repr, DecidableEq

/-- Modelled from the spec: the store's atomic constrained insert —
rejects with `DuplicateCredential` when a row already holds the username
or the email (the table's UNIQUE constraints), otherwise inserts one row
with the next serial id and the default role. -/
def createUser (db : AuthDB) (username email password_hash : String) :
    Except AuthError (User × AuthDB) :=
  if db.users.any (fun u => u.username == username || u.email == email) then
    .error .duplicateCredential
  else
    let u : User :=
      { id := db.nextId, username := username, email := email
        password_hash := password_hash, role := "user" }
    .ok (u, { users := db.users ++ [u], nextId := db.nextId + 1 })

/-- Store lookup by username. -/
def findByUsername (db : AuthDB) (username : String) : Option User :=
  db.users.find? (fun u => u.username == username)

/-! ## Authority HTTP surface -/

/-- An HTTP response of the authentication service. -/
structure HttpResponse where
  status : Nat
  body : Json
deriving Repr

/-- A registration request body; each field possibly missing. -/
structure RegisterRequest where
  username : Option String
  email : Option String
  password : Option String
deriving Repr

/-- JavaScript truthiness of an optional string: present and non-empty. -/
def jsTruthy : Option String → Bool
  | some s => !(s == "")
  | none => false

/-- The generic `InvalidCredentials` error body: deliberately identical
for an unknown username and for a wrong password. -/
def invalidCredentialsBody : Json :=
  .obj [("error", .str "Invalid credentials")]

/-- The `DuplicateCredential` error body. -/
def duplicateCredentialBody : Json :=
  .obj [("error", .str "Username or email already exists")]

/-- The authority's missing-field validation error body. -/
def missingFieldsBody : Json :=
  .obj [("error", .str "Missing required fields")]

/-- Modelled from the spec: `POST /api/auth/register` on the authority —
`400` when a required field is missing or empty, `409` on a duplicate,
otherwise hash the password, persist atomically and answer `201` with
the created user's public fields `{id, username, email}` (never the
hash). Returns the response together with the store state after the
request. -/
def authRegister (db : AuthDB) (req : RegisterRequest) : HttpResponse × AuthDB :=
  if jsTruthy req.username && jsTruthy req.email && jsTruthy req.password then
    let username := (req.username).getD ""
    let email := (req.email).getD ""
    let password := (req.password).getD ""
    match createUser db username email (bcryptHash password) with
    | .error _ => (⟨409, duplicateCredentialBody⟩, db)
    | .ok (u, db') =>
        (⟨201, .obj [("id", .num u.id), ("username", .str u.username),
                     ("email", .str u.email)]⟩, db')
  else
    (⟨400, missingFieldsBody⟩, db)

/-- Modelled from the spec: `POST /api/auth/login` on the authority —
look up the user; when absent fail with the generic `InvalidCredentials`
error; verify the password against the stored hash and on mismatch fail
with the very same error; on success answer `200` with
`{access_token, token_type: "Bearer", expires_in}`. -/
def authLogin (db : AuthDB) (kp : KeyPair) (now : Nat)
    (username password : Option String) : HttpResponse :=
  if jsTruthy username && jsTruthy password then
    let uname := username.getD ""
    let pword := password.getD ""
    match findByUsername db uname with
    | none => ⟨401, invalidCredentialsBody⟩
    | some u =>
        if bcryptVerify pword u.password_hash then
          let tok := issueToken kp u.id u.role now
          ⟨200, .obj [("access_token", .str (encodeToken tok)),
                      ("token_type", .str "Bearer"),
                      ("expires_in", .num tokenLifetime)]⟩
        else
          ⟨401, invalidCredentialsBody⟩
  else
    ⟨400, missingFieldsBody⟩

/-! ## Frontend (translated from `frontend/app.js` and
`frontend/routes/auth.js`) -/

/-- A cookie set with `res.cookie(name, value, options)`. -/
structure Cookie where
  name : String
  value : String
  httpOnly : Bool
  secure : Bool
  sameSite : String
  maxAge : Nat
deriving Repr, DecidableEq

/-- A frontend HTTP response: status, JSON body, cookies set with
`res.cookie` and cookie names cleared with `res.clearCookie`. -/
structure FrontendResponse where
  status : Nat
  body : Json
  setCookies : List Cookie
  clearedCookies : List String
deriving Repr

/-- `app.js` middleware: `req.jwt_token` is set from the `jwt_token`
cookie only when that cookie is truthy (present and non-empty). -/
def extractJwtToken (jwtCookie : Option String) : Option String :=
  match jwtCookie with
  | some v => if v == "" then none else some v
  | none => none

/-- `requireAuth` middleware (`auth.js` lines 9–15): passes exactly when
`req.jwt_token && req.cookies.username` is truthy. -/
def requireAuthPasses (jwtTok usernameCookie : Option String) : Bool :=
  jsTruthy jwtTok && jsTruthy usernameCookie

/-- `GET /auth/status` (`auth.js` lines 118–129): reports
`authenticated` under the same condition as `requireAuth`. -/
def frontendStatus (jwtCookie usernameCookie : Option String) : FrontendResponse :=
  if jsTruthy (extractJwtToken jwtCookie) && jsTruthy usernameCookie then
    ⟨200, .obj [("authenticated", .bool true),
                ("user", .obj [("username", .str (usernameCookie.getD ""))])],
     [], []⟩
  else
    ⟨200, .obj [("authenticated", .bool false)], [], []⟩

/-- The home page's authentication check (`app.js` line 63):
`!!(req.jwt_token && req.cookies.username)`. -/
def homeIsAuthenticated (jwtCookie usernameCookie : Option String) : Bool :=
  jsTruthy (extractJwtToken jwtCookie) && jsTruthy usernameCookie

/-- `POST /auth/register` (`auth.js` lines 18–54): `400` when a body
field is falsy; otherwise forward to the authority and on success answer
`201` with `{message, user: {id, username, email}}` (reading `user_id`
and `username` from the authority's response data); on an authority
error forward its status with `{error: data}`. Never sets a cookie. -/
def frontendRegister (db : AuthDB) (req : RegisterRequest) :
    FrontendResponse × AuthDB :=
  if jsTruthy req.username && jsTruthy req.email && jsTruthy req.password then
    let (resp, db') := authRegister db req
    if resp.status < 400 then
      (⟨201, .obj [("message", .str "User registered successfully. Please log in to continue."),
                   ("user", .obj [("id", resp.body.getField "user_id"),
                                  ("username", resp.body.getField "username"),
                                  ("email", .str (req.email.getD ""))])],
        [], []⟩, db')
    else
      (⟨resp.status, .obj [("error", resp.body)], [], []⟩, db')
  else
    (⟨400, .obj [("error", .str "Username, email, and password are required")], [], []⟩, db)

/-- `POST /auth/login` (`auth.js` lines 57–107): `400` when a body field
is falsy; on an authority success set the `jwt_token` cookie (httpOnly)
and the `username` cookie (readable), both with
`maxAge = expires_in * 1000`, `sameSite: "strict"` and
`secure = (NODE_ENV == "production")`, and answer
`{message, user: {username}}`; on an authority error forward its status
with `{error: data}`. -/
def frontendLogin (db : AuthDB) (kp : KeyPair) (now : Nat) (production : Bool)
    (username password : Option String) : FrontendResponse :=
  if jsTruthy username && jsTruthy password then
    let resp := authLogin db kp now username password
    if resp.status < 400 then
      let expiresIn := (resp.body.getField "expires_in").asNum
      let accessToken := (resp.body.getField "access_token").asStr
      ⟨200, .obj [("message", .str "Login successful"),
                  ("user", .obj [("username", .str (username.getD ""))])],
        [{ name := "jwt_token", value := accessToken, httpOnly := true,
           secure := production, sameSite := "strict", maxAge := expiresIn * 1000 },
         { name := "username", value := username.getD "", httpOnly := false,
           secure := production, sameSite := "strict", maxAge := expiresIn * 1000 }],
        []⟩
    else
      ⟨resp.status, .obj [("error", resp.body)], [], []⟩
  else
    ⟨400, .obj [("error", .str "Username and password are required")], [], []⟩

/-- `POST /auth/logout` (`auth.js` lines 110–115): clears both cookies,
sets none. -/
def frontendLogout : FrontendResponse :=
  ⟨200, .obj [("message", .str "Logout successful")], [], ["jwt_token", "username"]⟩

/-- `GET /auth/user` (`auth.js` lines 132–136): behind `requireAuth`;
`401` when the middleware rejects, otherwise the username. -/
def frontendUser (jwtCookie usernameCookie : Option String) : FrontendResponse :=
  if requireAuthPasses (extractJwtToken jwtCookie) usernameCookie then
    ⟨200, .obj [("username", .str (usernameCookie.getD ""))], [], []⟩
  else
    ⟨401, .obj [("error", .str "Authentication required")], [], []⟩

/-! ## Helper lemmas -/

/-- The strings a registration response may contain: the request's own
public fields and the fixed UI messages. -/
def registerPublicStrings (req : RegisterRequest) : List String :=
  [req.username.getD "", req.email.getD "",
   "User registered successfully. Please log in to continue.",
   "Username or email already exists",
   "Missing required fields",
   "Username, email, and password are required"]

/-- The strings a frontend login response may contain. -/
def loginPublicStrings (username : Option String) : List String :=
  [username.getD "", "Login successful", "Invalid credentials",
   "Missing required fields", "Username and password are required"]

lemma authRegister_strings_subset (db : AuthDB) (req : RegisterRequest) :
    (authRegister db req).1.body.strings ⊆ registerPublicStrings req := by
  by_cases h : (jsTruthy req.username && jsTruthy req.email &&
      jsTruthy req.password) = true
  · cases hc : createUser db (req.username.getD "") (req.email.getD "")
        (bcryptHash (req.password.getD "")) with
    | error e =>
        have hs : authRegister db req = (⟨409, duplicateCredentialBody⟩, db) := by
          simp [authRegister, h, hc]
        simp [hs, duplicateCredentialBody, Json.strings, Json.stringsOfFields,
          registerPublicStrings]
    | ok p =>
        obtain ⟨u, db'⟩ := p
        have hs : authRegister db req =
            (⟨201, .obj [("id", .num u.id), ("username", .str u.username),
                         ("email", .str u.email)]⟩, db') := by
          simp [authRegister, h, hc]
        have hfields : u.username = req.username.getD "" ∧
            u.email = req.email.getD "" := by
          unfold createUser at hc
          split at hc
          · simp at hc
          · simp only [Except.ok.injEq, Prod.mk.injEq] at hc
            obtain ⟨h1, _⟩ := hc
            rw [← h1]
            exact ⟨rfl, rfl⟩
        simp [hs, Json.strings, Json.stringsOfFields, registerPublicStrings,
          hfields.1, hfields.2]
  · simp only [Bool.not_eq_true] at h
    have hs : authRegister db req = (⟨400, missingFieldsBody⟩, db) := by
      simp [authRegister, h]
    simp [hs, missingFieldsBody, Json.strings, Json.stringsOfFields,
      registerPublicStrings]

lemma frontendRegister_strings_subset (db : AuthDB) (req : RegisterRequest) :
    (frontendRegister db req).1.body.strings ⊆ registerPublicStrings req := by
  by_cases h : (jsTruthy req.username && jsTruthy req.email &&
      jsTruthy req.password) = true
  · cases hc : createUser db (req.username.getD "") (req.email.getD "")
        (bcryptHash (req.password.getD "")) with
    | error e =>
        have hs : authRegister db req = (⟨409, duplicateCredentialBody⟩, db) := by
          simp [authRegister, h, hc]
        simp [frontendRegister, h, hs, duplicateCredentialBody, Json.strings,
          Json.stringsOfFields, registerPublicStrings]
    | ok p =>
        obtain ⟨u, db'⟩ := p
        have hs : authRegister db req =
            (⟨201, .obj [("id", .num u.id), ("username", .str u.username),
                         ("email", .str u.email)]⟩, db') := by
          simp [authRegister, h, hc]
        have hfields : u.username = req.username.getD "" ∧
            u.email = req.email.getD "" := by
          unfold createUser at hc
          split at hc
          · simp at hc
          · simp only [Except.ok.injEq, Prod.mk.injEq] at hc
            obtain ⟨h1, _⟩ := hc
            rw [← h1]
            exact ⟨rfl, rfl⟩
        simp [frontendRegister, h, hs, Json.getField, Json.strings,
          Json.stringsOfFields, registerPublicStrings, hfields.1, hfields.2]
  · simp only [Bool.not_eq_true] at h
    simp [frontendRegister, h, Json.strings, Json.stringsOfFields,
      registerPublicStrings]

lemma frontendLogin_strings_subset (db : AuthDB) (kp : KeyPair) (now : Nat)
    (production : Bool) (lu lp : Option String) :
    (frontendLogin db kp now production lu lp).body.strings ⊆
      loginPublicStrings lu := by
  by_cases h : (jsTruthy lu && jsTruthy lp) = true
  · cases hf : findByUsername db (lu.getD "") with
    | none =>
        have hs : authLogin db kp now lu lp = ⟨401, invalidCredentialsBody⟩ := by
          simp [authLogin, h, hf]
        simp [frontendLogin, h, hs, invalidCredentialsBody, Json.strings,
          Json.stringsOfFields, loginPublicStrings]
    | some u =>
        by_cases hv : bcryptVerify (lp.getD "") u.password_hash = true
        · have hs : authLogin db kp now lu lp =
              ⟨200, .obj [("access_token",
                            .str (encodeToken (issueToken kp u.id u.role now))),
                          ("token_type", .str "Bearer"),
                          ("expires_in", .num tokenLifetime)]⟩ := by
            simp [authLogin, h, hf, hv]
          simp [frontendLogin, h, hs, Json.getField, Json.asStr, Json.asNum,
            Json.strings, Json.stringsOfFields, loginPublicStrings]
        · simp only [Bool.not_eq_true] at hv
          have hs : authLogin db kp now lu lp = ⟨401, invalidCredentialsBody⟩ := by
            simp [authLogin, h, hf, hv]
          simp [frontendLogin, h, hs, invalidCredentialsBody, Json.strings,
            Json.stringsOfFields, loginPublicStrings]
  · simp only [Bool.not_eq_true] at h
    simp [frontendLogin, h, Json.strings, Json.stringsOfFields,
      loginPublicStrings]

lemma jsTruthy_extract (c : Option String) :
    jsTruthy (extractJwtToken c) = jsTruthy c := by
  cases c with
  | none => rfl
  | some v =>
      by_cases h : v = "" <;> simp [extractJwtToken, jsTruthy, h]

/-! ## Claims -/

/-- C3: every issued token has `expires_at = issued_at + 3600`; it
verifies at `issued_at + 3599` and fails with `TokenExpired` at
`issued_at + 3601`; verification at or after the expiry always fails, so
it never extends the expiry. -/
theorem token_expiry_contract (priv kid : String) (uid : Nat) (role : String)
    (now : Nat) :
    (issueToken (loadKeyPair priv kid) uid role now).claims.exp = some (now + 3600) ∧
    verifyToken (loadKeyPair priv kid).publicKey kid (now + 3599)
        (issueToken (loadKeyPair priv kid) uid role now) =
      .ok ⟨uid, role, now, now + 3600, issuerName⟩ ∧
    verifyToken (loadKeyPair priv kid).publicKey kid (now + 3601)
        (issueToken (loadKeyPair priv kid) uid role now) =
      .error .tokenExpired ∧
    (∀ m : Nat, now + 3600 ≤ m →
      verifyToken (loadKeyPair priv kid).publicKey kid m
          (issueToken (loadKeyPair priv kid) uid role now) =
        .error .tokenExpired) := by
  refine ⟨rfl, ?_, ?_, ?_⟩
  · simp [verifyToken, issueToken, loadKeyPair, derivePublic, rsaVerify,
      RawClaims.ofClaims, tokenLifetime]
  · simp [verifyToken, issueToken, loadKeyPair, derivePublic, rsaVerify,
      RawClaims.ofClaims, tokenLifetime]
  · intro m hm
    simp only [verifyToken, issueToken, loadKeyPair, derivePublic, rsaVerify,
      RawClaims.ofClaims, tokenLifetime]
    simp [hm]

/-- Witness for C3 at concrete inputs. -/
theorem token_expiry_contract_witness :
    verifyToken (loadKeyPair "k0" "kid-1").publicKey "kid-1" 4700
        (issueToken (loadKeyPair "k0" "kid-1") 7 "user" 1000) =
      .error .tokenExpired :=
  (token_expiry_contract "k0" "kid-1" 7 "user" 1000).2.2.2 4700 (by decide)

/-- C4: the key set published at `/.well-known/jwks.json` is exactly the
public half of the Issuer's private key, and a token signed by the
Issuer verifies using only a key from the published set. -/
theorem jwks_publishes_issuer_key (priv kid : String) (uid : Nat)
    (role : String) (now : Nat) :
    jwksDocument (loadKeyPair priv kid) =
      [{ kty := "RSA", kid := kid, alg := "RS256", key := derivePublic priv }] ∧
    (∀ jwk ∈ jwksDocument (loadKeyPair priv kid),
      verifyToken jwk.key jwk.kid now
          (issueToken (loadKeyPair priv kid) uid role now) =
        .ok ⟨uid, role, now, now + tokenLifetime, issuerName⟩) := by
  constructor
  · rfl
  · intro jwk hjwk
    simp only [jwksDocument, List.mem_singleton] at hjwk
    subst hjwk
    simp [verifyToken, issueToken, loadKeyPair, derivePublic, rsaVerify,
      RawClaims.ofClaims, tokenLifetime]

/-- Witness for C4 at concrete inputs. -/
theorem jwks_publishes_issuer_key_witness :
    verifyToken (Jwk.mk "RSA" "kid-1" "RS256" (derivePublic "k0")).key
        (Jwk.mk "RSA" "kid-1" "RS256" (derivePublic "k0")).kid 1000
        (issueToken (loadKeyPair "k0" "kid-1") 7 "user" 1000) =
      .ok ⟨7, "user", 1000, 1000 + tokenLifetime, issuerName⟩ :=
  (jwks_publishes_issuer_key "k0" "kid-1" 7 "user" 1000).2
    (Jwk.mk "RSA" "kid-1" "RS256" (derivePublic "k0")) (by decide)

/-- C8: the verifier answers `UnknownKey` on a key-identifier mismatch
regardless of the rest of the token (the check precedes the signature
check), `InvalidSignature` on any altered signature regardless of the
claims (never a claim-level error), `TokenExpired` on a passed expiry,
and `MalformedToken` whenever any required claim — `exp`, `sub`, `role`,
`iat` or `iss` — is missing. -/
theorem verifier_rejection_modes (pub : PublicKey) (pkid : String) (now : Nat) :
    (∀ t : Token, t.kid ≠ pkid →
      verifyToken pub pkid now t = .error .unknownKey) ∧
    (∀ t : Token, t.kid = pkid →
      t.signature ≠ rsaSign pub.pairSeed (encodeRaw t.claims) →
      verifyToken pub pkid now t = .error .invalidSignature) ∧
    (∀ t : Token, ∀ e : Nat, t.kid = pkid →
      t.signature = rsaSign pub.pairSeed (encodeRaw t.claims) →
      t.claims.exp = some e → e ≤ now →
      verifyToken pub pkid now t = .error .tokenExpired) ∧
    (∀ t : Token, t.kid = pkid →
      t.signature = rsaSign pub.pairSeed (encodeRaw t.claims) →
      t.claims.exp = none →
      verifyToken pub pkid now t = .error .malformedToken) ∧
    (∀ t : Token, ∀ e : Nat, t.kid = pkid →
      t.signature = rsaSign pub.pairSeed (encodeRaw t.claims) →
      t.claims.exp = some e → now < e →
      (t.claims.sub = none ∨ t.claims.role = none ∨ t.claims.iat = none ∨
        t.claims.iss = none) →
      verifyToken pub pkid now t = .error .malformedToken) := by
  refine ⟨?_, ?_, ?_, ?_, ?_⟩
  · intro t hk
    simp [verifyToken, hk]
  · intro t hk hs
    simp only [verifyToken, hk]
    simp [rsaVerify, hs]
  · intro t e hk hs he hle
    simp only [verifyToken, hk]
    simp [rsaVerify, hs, he, hle]
  · intro t hk hs he
    simp only [verifyToken, hk]
    simp [rsaVerify, hs, he]
  · intro t e hk hs he hlt hmiss
    have hnot : ¬ e ≤ now := Nat.not_le.mpr hlt
    cases hsub : t.claims.sub <;> cases hrole : t.claims.role <;>
      cases hiat : t.claims.iat <;> cases hiss : t.claims.iss <;>
      simp_all [verifyToken, rsaVerify]

/-- Witness for C8: a flipped signature on an otherwise well-formed
token is rejected with the signature error. -/
theorem verifier_rejection_modes_witness :
    verifyToken (derivePublic "k0") "kid-1" 1000
        { kid := "kid-1",
          claims := RawClaims.ofClaims ⟨7, "user", 1000, 4600, issuerName⟩,
          signature := "flipped" } =
      .error .invalidSignature :=
  (verifier_rejection_modes (derivePublic "k0") "kid-1" 1000).2.1
    { kid := "kid-1",
      claims := RawClaims.ofClaims ⟨7, "user", 1000, 4600, issuerName⟩,
      signature := "flipped" }
    (by decide) (by decide)

/-- C1: the login failure for an unknown username and the login failure
for a known username with a wrong password are the identical generic
`InvalidCredentials` response, at the authority and after the frontend
forwards it — nothing distinguishes the two causes. -/
theorem login_failure_indistinguishable (db : AuthDB) (kp : KeyPair)
    (now : Nat) (production : Bool) (u1 p1 u2 p2 : Option String) (usr : User)
    (ht1 : jsTruthy u1 = true) (ht2 : jsTruthy p1 = true)
    (ht3 : jsTruthy u2 = true) (ht4 : jsTruthy p2 = true)
    (habsent : findByUsername db (u1.getD "") = none)
    (hfound : findByUsername db (u2.getD "") = some usr)
    (hwrong : bcryptVerify (p2.getD "") usr.password_hash = false) :
    authLogin db kp now u1 p1 = authLogin db kp now u2 p2 ∧
    authLogin db kp now u1 p1 = ⟨401, invalidCredentialsBody⟩ ∧
    frontendLogin db kp now production u1 p1 =
      frontendLogin db kp now production u2 p2 ∧
    frontendLogin db kp now production u1 p1 =
      ⟨401, .obj [("error", invalidCredentialsBody)], [], []⟩ := by
  have h1 : authLogin db kp now u1 p1 = ⟨401, invalidCredentialsBody⟩ := by
    simp [authLogin, ht1, ht2, habsent]
  have h2 : authLogin db kp now u2 p2 = ⟨401, invalidCredentialsBody⟩ := by
    simp [authLogin, ht3, ht4, hfound, hwrong]
  have h3 : frontendLogin db kp now production u1 p1 =
      ⟨401, .obj [("error", invalidCredentialsBody)], [], []⟩ := by
    simp [frontendLogin, ht1, ht2, h1]
  have h4 : frontendLogin db kp now production u2 p2 =
      ⟨401, .obj [("error", invalidCredentialsBody)], [], []⟩ := by
    simp [frontendLogin, ht3, ht4, h2]
  exact ⟨h1.trans h2.symm, h1, h3.trans h4.symm, h3⟩

/-- Witness for C1: a store holding only alice; logging in as the absent
bob and as alice with a wrong password. -/
theorem login_failure_indistinguishable_witness :
    authLogin ⟨[⟨1, "alice", "alice@x.com", bcryptHash "pw1234", "user"⟩], 2⟩
        (loadKeyPair "k0" "kid-1") 1000 (some "bob") (some "pw") =
      authLogin ⟨[⟨1, "alice", "alice@x.com", bcryptHash "pw1234", "user"⟩], 2⟩
        (loadKeyPair "k0" "kid-1") 1000 (some "alice") (some "wrongpw") :=
  (login_failure_indistinguishable
    ⟨[⟨1, "alice", "alice@x.com", bcryptHash "pw1234", "user"⟩], 2⟩
    (loadKeyPair "k0" "kid-1") 1000 false
    (some "bob") (some "pw") (some "alice") (some "wrongpw")
    ⟨1, "alice", "alice@x.com", bcryptHash "pw1234", "user"⟩
    (by decide) (by decide) (by decide) (by decide)
    (by decide) (by decide) (by decide)).1

/-- C2: registering the same username twice over a fresh store, in
either interleaving order of the two atomic inserts, yields exactly one
`201` creation and one `409 DuplicateCredential`; the failing attempt
leaves the store untouched (no overwrite) and exactly one record with
that username exists afterwards. -/
theorem duplicate_registration_exactly_one (db : AuthDB)
    (uname e1 e2 p1 p2 : String)
    (hu : uname ≠ "") (he1 : e1 ≠ "") (he2 : e2 ≠ "")
    (hp1 : p1 ≠ "") (hp2 : p2 ≠ "")
    (hfresh1 : db.users.any (fun u => u.username == uname || u.email == e1) = false)
    (hfresh2 : db.users.any (fun u => u.username == uname || u.email == e2) = false) :
    ((authRegister db ⟨some uname, some e1, some p1⟩).1.status = 201 ∧
     (authRegister (authRegister db ⟨some uname, some e1, some p1⟩).2
        ⟨some uname, some e2, some p2⟩).1.status = 409 ∧
     (authRegister (authRegister db ⟨some uname, some e1, some p1⟩).2
        ⟨some uname, some e2, some p2⟩).2 =
       (authRegister db ⟨some uname, some e1, some p1⟩).2 ∧
     ((authRegister db ⟨some uname, some e1, some p1⟩).2.users.countP
        (fun u => u.username == uname)) = 1) ∧
    ((authRegister db ⟨some uname, some e2, some p2⟩).1.status = 201 ∧
     (authRegister (authRegister db ⟨some uname, some e2, some p2⟩).2
        ⟨some uname, some e1, some p1⟩).1.status = 409 ∧
     (authRegister (authRegister db ⟨some uname, some e2, some p2⟩).2
        ⟨some uname, some e1, some p1⟩).2 =
       (authRegister db ⟨some uname, some e2, some p2⟩).2 ∧
     ((authRegister db ⟨some uname, some e2, some p2⟩).2.users.countP
        (fun u => u.username == uname)) = 1) := by
  have hcount1 : db.users.countP (fun u => u.username == uname) = 0 := by
    rw [List.countP_eq_zero]
    intro u hmem
    have := (List.any_eq_false.mp hfresh1) u hmem
    simp only [Bool.or_eq_true, not_or] at this
    simpa using this.1
  have tu : jsTruthy (some uname) = true := by simp [jsTruthy, hu]
  have te1 : jsTruthy (some e1) = true := by simp [jsTruthy, he1]
  have te2 : jsTruthy (some e2) = true := by simp [jsTruthy, he2]
  have tp1 : jsTruthy (some p1) = true := by simp [jsTruthy, hp1]
  have tp2 : jsTruthy (some p2) = true := by simp [jsTruthy, hp2]
  have s1 : authRegister db ⟨some uname, some e1, some p1⟩ =
      (⟨201, .obj [("id", .num db.nextId), ("username", .str uname),
                   ("email", .str e1)]⟩,
       ⟨db.users ++ [⟨db.nextId, uname, e1, bcryptHash p1, "user"⟩],
        db.nextId + 1⟩) := by
    simp [authRegister, createUser, tu, te1, tp1, hfresh1]
  have s2 : authRegister db ⟨some uname, some e2, some p2⟩ =
      (⟨201, .obj [("id", .num db.nextId), ("username", .str uname),
                   ("email", .str e2)]⟩,
       ⟨db.users ++ [⟨db.nextId, uname, e2, bcryptHash p2, "user"⟩],
        db.nextId + 1⟩) := by
    simp [authRegister, createUser, tu, te2, tp2, hfresh2]
  have d1 : (db.users ++
        [(⟨db.nextId, uname, e1, bcryptHash p1, "user"⟩ : User)]).any
      (fun u => u.username == uname || u.email == e2) = true := by
    simp [List.any_append]
  have d2 : (db.users ++
        [(⟨db.nextId, uname, e2, bcryptHash p2, "user"⟩ : User)]).any
      (fun u => u.username == uname || u.email == e1) = true := by
    simp [List.any_append]
  have s3 : authRegister
      (⟨db.users ++ [⟨db.nextId, uname, e1, bcryptHash p1, "user"⟩],
        db.nextId + 1⟩ : AuthDB) ⟨some uname, some e2, some p2⟩ =
      (⟨409, duplicateCredentialBody⟩,
       ⟨db.users ++ [⟨db.nextId, uname, e1, bcryptHash p1, "user"⟩],
        db.nextId + 1⟩) := by
    simp [authRegister, createUser, tu, te2, tp2, d1]
  have s4 : authRegister
      (⟨db.users ++ [⟨db.nextId, uname, e2, bcryptHash p2, "user"⟩],
        db.nextId + 1⟩ : AuthDB) ⟨some uname, some e1, some p1⟩ =
      (⟨409, duplicateCredentialBody⟩,
       ⟨db.users ++ [⟨db.nextId, uname, e2, bcryptHash p2, "user"⟩],
        db.nextId + 1⟩) := by
    simp [authRegister, createUser, tu, te1, tp1, d2]
  refine ⟨⟨?_, ?_, ?_, ?_⟩, ⟨?_, ?_, ?_, ?_⟩⟩ <;>
    simp [s1, s2, s3, s4, List.countP_append, List.countP_cons, hcount1]

/-- Witness for C2 over the empty store. -/
theorem duplicate_registration_exactly_one_witness :
    (authRegister (authRegister ⟨[], 1⟩
        ⟨some "alice", some "alice@x.com", some "pw1234"⟩).2
      ⟨some "alice", some "alice2@x.com", some "pw1"⟩).1.status = 409 :=
  (duplicate_registration_exactly_one ⟨[], 1⟩ "alice" "alice@x.com"
    "alice2@x.com" "pw1234" "pw1"
    (by decide) (by decide) (by decide) (by decide) (by decide)
    (by decide) (by decide)).1.2.1

/-- C5: `POST /api/auth/register` answers `400` when a field is missing
(leaving the store untouched), `409` when the username or email is
already taken (leaving the store untouched), and `201` with
`{id, username, email}` on success; the frontend route forwards the
same statuses. -/
theorem register_endpoint_contract (db : AuthDB) (req : RegisterRequest) :
    ((jsTruthy req.username && jsTruthy req.email && jsTruthy req.password) = false →
      (authRegister db req).1.status = 400 ∧ (authRegister db req).2 = db ∧
      (frontendRegister db req).1.status = 400) ∧
    ((jsTruthy req.username && jsTruthy req.email && jsTruthy req.password) = true →
      db.users.any (fun u => u.username == req.username.getD "" ||
        u.email == req.email.getD "") = true →
      (authRegister db req).1.status = 409 ∧ (authRegister db req).2 = db ∧
      (frontendRegister db req).1.status = 409) ∧
    ((jsTruthy req.username && jsTruthy req.email && jsTruthy req.password) = true →
      db.users.any (fun u => u.username == req.username.getD "" ||
        u.email == req.email.getD "") = false →
      authRegister db req =
        (⟨201, .obj [("id", .num db.nextId),
                     ("username", .str (req.username.getD "")),
                     ("email", .str (req.email.getD ""))]⟩,
         ⟨db.users ++ [⟨db.nextId, req.username.getD "", req.email.getD "",
            bcryptHash (req.password.getD ""), "user"⟩], db.nextId + 1⟩) ∧
      (frontendRegister db req).1.status = 201) := by
  refine ⟨?_, ?_, ?_⟩
  · intro h
    refine ⟨?_, ?_, ?_⟩ <;> simp [authRegister, frontendRegister, h]
  · intro h hdup
    have s : authRegister db req = (⟨409, duplicateCredentialBody⟩, db) := by
      simp [authRegister, createUser, h, hdup]
    refine ⟨?_, ?_, ?_⟩ <;> simp [frontendRegister, s, h]
  · intro h hfresh
    have s : authRegister db req =
        (⟨201, .obj [("id", .num db.nextId),
                     ("username", .str (req.username.getD "")),
                     ("email", .str (req.email.getD ""))]⟩,
         ⟨db.users ++ [⟨db.nextId, req.username.getD "", req.email.getD "",
            bcryptHash (req.password.getD ""), "user"⟩], db.nextId + 1⟩) := by
      simp [authRegister, createUser, h, hfresh]
    exact ⟨s, by simp [frontendRegister, s, h]⟩

/-- Witness for C5: the duplicate branch at a concrete store. -/
theorem register_endpoint_contract_witness :
    (authRegister ⟨[⟨1, "alice", "alice@x.com", bcryptHash "pw", "user"⟩], 2⟩
      ⟨some "alice", some "alice2@x.com", some "pw1"⟩).1.status = 409 :=
  ((register_endpoint_contract
    ⟨[⟨1, "alice", "alice@x.com", bcryptHash "pw", "user"⟩], 2⟩
    ⟨some "alice", some "alice2@x.com", some "pw1"⟩).2.1
    (by decide) (by decide)).1

/-- C6: `POST /api/auth/login` answers `200` with
`{access_token, token_type: "Bearer", expires_in: 3600}` on valid
credentials and `401` on an unknown username or a wrong password. -/
theorem login_endpoint_contract (db : AuthDB) (kp : KeyPair) (now : Nat)
    (username password : Option String) :
    (∀ u : User, jsTruthy username = true → jsTruthy password = true →
      findByUsername db (username.getD "") = some u →
      bcryptVerify (password.getD "") u.password_hash = true →
      authLogin db kp now username password =
        ⟨200, .obj [("access_token",
                      .str (encodeToken (issueToken kp u.id u.role now))),
                    ("token_type", .str "Bearer"),
                    ("expires_in", .num 3600)]⟩) ∧
    (jsTruthy username = true → jsTruthy password = true →
      findByUsername db (username.getD "") = none →
      authLogin db kp now username password = ⟨401, invalidCredentialsBody⟩) ∧
    (∀ u : User, jsTruthy username = true → jsTruthy password = true →
      findByUsername db (username.getD "") = some u →
      bcryptVerify (password.getD "") u.password_hash = false →
      authLogin db kp now username password = ⟨401, invalidCredentialsBody⟩) := by
  refine ⟨?_, ?_, ?_⟩
  · intro u h1 h2 hfind hver
    simp [authLogin, h1, h2, hfind, hver, tokenLifetime]
  · intro h1 h2 hfind
    simp [authLogin, h1, h2, hfind]
  · intro u h1 h2 hfind hver
    simp [authLogin, h1, h2, hfind, hver]

/-- Witness for C6: a successful login at a concrete store. -/
theorem login_endpoint_contract_witness :
    authLogin ⟨[⟨1, "alice", "alice@x.com", bcryptHash "pw1234", "user"⟩], 2⟩
        (loadKeyPair "k0" "kid-1") 1000 (some "alice") (some "pw1234") =
      ⟨200, .obj [("access_token",
                    .str (encodeToken (issueToken (loadKeyPair "k0" "kid-1")
                      1 "user" 1000))),
                  ("token_type", .str "Bearer"),
                  ("expires_in", .num 3600)]⟩ :=
  (login_endpoint_contract
    ⟨[⟨1, "alice", "alice@x.com", bcryptHash "pw1234", "user"⟩], 2⟩
    (loadKeyPair "k0" "kid-1") 1000 (some "alice") (some "pw1234")).1
    ⟨1, "alice", "alice@x.com", bcryptHash "pw1234", "user"⟩
    (by decide) (by decide) (by decide) (by decide)

/-- C7: every string in a registration or login response is one of the
request's own public fields or a fixed UI message, and the password hash
is in none of them — on the success path and on every error path; the
token-carrying responses leak nothing either: the authority's login
`200` body holds exactly the encoded token and `"Bearer"`, the
frontend's cookies hold exactly the encoded token and the username, and
the token — hence the body and the cookie built from it — is a function
of the user's id and role only: replacing the stored password hash (and
the password that verifies against it) by any other leaves the login
responses and cookies identical. -/
theorem responses_never_contain_password_hash (db : AuthDB)
    (req : RegisterRequest) (kp : KeyPair) (now : Nat) (production : Bool)
    (lu lp : Option String) (pw : String) :
    ((authRegister db req).1.body.strings ⊆ registerPublicStrings req) ∧
    ((frontendRegister db req).1.body.strings ⊆ registerPublicStrings req) ∧
    ((frontendLogin db kp now production lu lp).body.strings ⊆
      loginPublicStrings lu) ∧
    (bcryptHash pw ∉ registerPublicStrings req →
      bcryptHash pw ∉ (authRegister db req).1.body.strings ∧
      bcryptHash pw ∉ (frontendRegister db req).1.body.strings) ∧
    (bcryptHash pw ∉ loginPublicStrings lu →
      bcryptHash pw ∉ (frontendLogin db kp now production lu lp).body.strings) ∧
    (∀ db1 db2 : AuthDB, ∀ u1 u2 : User, ∀ un pw1 pw2 : String,
      un ≠ "" → pw1 ≠ "" → pw2 ≠ "" →
      findByUsername db1 un = some u1 → findByUsername db2 un = some u2 →
      u1.id = u2.id → u1.role = u2.role →
      bcryptVerify pw1 u1.password_hash = true →
      bcryptVerify pw2 u2.password_hash = true →
      authLogin db1 kp now (some un) (some pw1) =
        authLogin db2 kp now (some un) (some pw2) ∧
      (authLogin db1 kp now (some un) (some pw1)).body.strings =
        [encodeToken (issueToken kp u1.id u1.role now), "Bearer"] ∧
      frontendLogin db1 kp now production (some un) (some pw1) =
        frontendLogin db2 kp now production (some un) (some pw2) ∧
      (frontendLogin db1 kp now production (some un) (some pw1)).setCookies.map
          Cookie.value =
        [encodeToken (issueToken kp u1.id u1.role now), un]) := by
  refine ⟨authRegister_strings_subset db req,
    frontendRegister_strings_subset db req,
    frontendLogin_strings_subset db kp now production lu lp, ?_, ?_, ?_⟩
  · intro hout
    exact ⟨fun hmem => hout (authRegister_strings_subset db req hmem),
      fun hmem => hout (frontendRegister_strings_subset db req hmem)⟩
  · intro hout hmem
    exact hout (frontendLogin_strings_subset db kp now production lu lp hmem)
  · intro db1 db2 u1 u2 un pw1 pw2 hun hp1 hp2 hf1 hf2 hid hrole hv1 hv2
    have tun : jsTruthy (some un) = true := by simp [jsTruthy, hun]
    have tp1 : jsTruthy (some pw1) = true := by simp [jsTruthy, hp1]
    have tp2 : jsTruthy (some pw2) = true := by simp [jsTruthy, hp2]
    have hsA : authLogin db1 kp now (some un) (some pw1) =
        ⟨200, .obj [("access_token",
                      .str (encodeToken (issueToken kp u1.id u1.role now))),
                    ("token_type", .str "Bearer"),
                    ("expires_in", .num tokenLifetime)]⟩ := by
      simp [authLogin, tun, tp1, hf1, hv1]
    have hsB : authLogin db2 kp now (some un) (some pw2) =
        ⟨200, .obj [("access_token",
                      .str (encodeToken (issueToken kp u2.id u2.role now))),
                    ("token_type", .str "Bearer"),
                    ("expires_in", .num tokenLifetime)]⟩ := by
      simp [authLogin, tun, tp2, hf2, hv2]
    have hfA : frontendLogin db1 kp now production (some un) (some pw1) =
        ⟨200, .obj [("message", .str "Login successful"),
                    ("user", .obj [("username", .str un)])],
         [{ name := "jwt_token",
            value := encodeToken (issueToken kp u1.id u1.role now),
            httpOnly := true, secure := production, sameSite := "strict",
            maxAge := 3600 * 1000 },
          { name := "username", value := un, httpOnly := false,
            secure := production, sameSite := "strict",
            maxAge := 3600 * 1000 }], []⟩ := by
      simp [frontendLogin, tun, tp1, hsA, Json.getField, Json.asStr,
        Json.asNum, tokenLifetime]
    have hfB : frontendLogin db2 kp now production (some un) (some pw2) =
        ⟨200, .obj [("message", .str "Login successful"),
                    ("user", .obj [("username", .str un)])],
         [{ name := "jwt_token",
            value := encodeToken (issueToken kp u2.id u2.role now),
            httpOnly := true, secure := production, sameSite := "strict",
            maxAge := 3600 * 1000 },
          { name := "username", value := un, httpOnly := false,
            secure := production, sameSite := "strict",
            maxAge := 3600 * 1000 }], []⟩ := by
      simp [frontendLogin, tun, tp2, hsB, Json.getField, Json.asStr,
        Json.asNum, tokenLifetime]
    refine ⟨?_, ?_, ?_, ?_⟩
    · rw [hsA, hsB, hid, hrole]
    · rw [hsA]
      simp [Json.strings, Json.stringsOfFields]
    · rw [hfA, hfB, hid, hrole]
    · rw [hfA]
      simp

/-- Witness for C7 at a concrete registration. -/
theorem responses_never_contain_password_hash_witness :
    bcryptHash "pw1234" ∉
      (authRegister (⟨[], 1⟩ : AuthDB)
        ⟨some "alice", some "alice@x.com", some "pw1234"⟩).1.body.strings :=
  ((responses_never_contain_password_hash ⟨[], 1⟩
    ⟨some "alice", some "alice@x.com", some "pw1234"⟩
    (loadKeyPair "k0" "kid-1") 1000 false (some "alice") (some "pw1234")
    "pw1234").2.2.2.1 (by decide)).1

/-- C9, as stated, is false: the frontend's checks test JavaScript
truthiness, not mere presence — a present but empty `username` cookie
paired with a present non-empty `jwt_token` cookie is rejected. -/
theorem frontend_auth_presence_counterexample :
    (some "sometoken" : Option String).isSome = true ∧
    (some "" : Option String).isSome = true ∧
    requireAuthPasses (extractJwtToken (some "sometoken")) (some "") = false ∧
    homeIsAuthenticated (some "sometoken") (some "") = false := by
  decide

/-- C9 (amended): the frontend treats a request as authenticated exactly
when both the `jwt_token` cookie and the `username` cookie are present
with non-empty values; `requireAuth`, `GET /auth/status` and the home
page use this same condition, and it never inspects the token's content
— any non-empty token value gives the same outcome. -/
theorem frontend_auth_checks_agree (jwtCookie usernameCookie : Option String) :
    (requireAuthPasses (extractJwtToken jwtCookie) usernameCookie =
      (jsTruthy jwtCookie && jsTruthy usernameCookie)) ∧
    ((frontendStatus jwtCookie usernameCookie).body.getField "authenticated" =
      .bool (jsTruthy jwtCookie && jsTruthy usernameCookie)) ∧
    (homeIsAuthenticated jwtCookie usernameCookie =
      (jsTruthy jwtCookie && jsTruthy usernameCookie)) ∧
    (∀ tok1 tok2 : String, tok1 ≠ "" → tok2 ≠ "" →
      requireAuthPasses (extractJwtToken (some tok1)) usernameCookie =
        requireAuthPasses (extractJwtToken (some tok2)) usernameCookie) := by
  refine ⟨?_, ?_, ?_, ?_⟩
  · simp [requireAuthPasses, jsTruthy_extract]
  · by_cases h : (jsTruthy (extractJwtToken jwtCookie) &&
        jsTruthy usernameCookie) = true
    · rw [jsTruthy_extract] at h
      simp [frontendStatus, jsTruthy_extract, h, Json.getField]
    · rw [jsTruthy_extract] at h
      simp only [Bool.not_eq_true] at h
      simp [frontendStatus, jsTruthy_extract, h, Json.getField]
  · simp [homeIsAuthenticated, jsTruthy_extract]
  · intro tok1 tok2 h1 h2
    have e1 : jsTruthy (extractJwtToken (some tok1)) = true := by
      rw [jsTruthy_extract]
      simp [jsTruthy, h1]
    have e2 : jsTruthy (extractJwtToken (some tok2)) = true := by
      rw [jsTruthy_extract]
      simp [jsTruthy, h2]
    simp [requireAuthPasses, e1, e2]

/-- Witness for C9 (amended) at concrete cookies. -/
theorem frontend_auth_checks_agree_witness :
    requireAuthPasses (extractJwtToken (some "tok-a")) (some "alice") =
      requireAuthPasses (extractJwtToken (some "tok-b")) (some "alice") :=
  (frontend_auth_checks_agree (some "tok-a") (some "alice")).2.2.2
    "tok-a" "tok-b" (by decide) (by decide)

/-- C10: a successful login sets exactly the `jwt_token` cookie
(httpOnly) and the `username` cookie (readable), both with the same
lifetime `expires_in * 1000` milliseconds; login failures, registration
and every other auth route set no cookie. -/
theorem login_cookie_discipline (db : AuthDB) (kp : KeyPair) (now : Nat)
    (production : Bool) (username password : Option String) (u : User)
    (ht1 : jsTruthy username = true) (ht2 : jsTruthy password = true)
    (hfound : findByUsername db (username.getD "") = some u)
    (hverify : bcryptVerify (password.getD "") u.password_hash = true) :
    (frontendLogin db kp now production username password).setCookies =
      [{ name := "jwt_token", value := encodeToken (issueToken kp u.id u.role now),
         httpOnly := true, secure := production, sameSite := "strict",
         maxAge := 3600 * 1000 },
       { name := "username", value := username.getD "", httpOnly := false,
         secure := production, sameSite := "strict", maxAge := 3600 * 1000 }] ∧
    (∀ un pw : Option String, (authLogin db kp now un pw).status ≠ 200 →
      (frontendLogin db kp now production un pw).setCookies = []) ∧
    (∀ r : RegisterRequest, (frontendRegister db r).1.setCookies = []) ∧
    frontendLogout.setCookies = [] ∧
    (∀ jc uc : Option String, (frontendStatus jc uc).setCookies = [] ∧
      (frontendUser jc uc).setCookies = []) := by
  refine ⟨?_, ?_, ?_, rfl, ?_⟩
  · have hs : authLogin db kp now username password =
        ⟨200, .obj [("access_token",
                      .str (encodeToken (issueToken kp u.id u.role now))),
                    ("token_type", .str "Bearer"),
                    ("expires_in", .num tokenLifetime)]⟩ := by
      simp [authLogin, ht1, ht2, hfound, hverify]
    simp [frontendLogin, ht1, ht2, hs, Json.getField, Json.asStr, Json.asNum,
      tokenLifetime]
  · intro un pw hne
    by_cases h : (jsTruthy un && jsTruthy pw) = true
    · cases hf : findByUsername db (un.getD "") with
      | none =>
          have hs : authLogin db kp now un pw = ⟨401, invalidCredentialsBody⟩ := by
            simp [authLogin, h, hf]
          simp [frontendLogin, h, hs]
      | some v =>
          by_cases hv : bcryptVerify (pw.getD "") v.password_hash = true
          · exfalso
            apply hne
            simp [authLogin, h, hf, hv]
          · simp only [Bool.not_eq_true] at hv
            have hs : authLogin db kp now un pw = ⟨401, invalidCredentialsBody⟩ := by
              simp [authLogin, h, hf, hv]
            simp [frontendLogin, h, hs]
    · simp only [Bool.not_eq_true] at h
      simp [frontendLogin, h]
  · intro r
    by_cases h : (jsTruthy r.username && jsTruthy r.email &&
        jsTruthy r.password) = true
    · cases hc : createUser db (r.username.getD "") (r.email.getD "")
          (bcryptHash (r.password.getD "")) with
      | error e =>
          have hs : authRegister db r = (⟨409, duplicateCredentialBody⟩, db) := by
            simp [authRegister, h, hc]
          simp [frontendRegister, h, hs]
      | ok p =>
          obtain ⟨v, db'⟩ := p
          have hs : authRegister db r =
              (⟨201, .obj [("id", .num v.id), ("username", .str v.username),
                           ("email", .str v.email)]⟩, db') := by
            simp [authRegister, h, hc]
          simp [frontendRegister, h, hs]
    · simp only [Bool.not_eq_true] at h
      simp [frontendRegister, h]
  · intro jc uc
    constructor
    · by_cases h : (jsTruthy (extractJwtToken jc) && jsTruthy uc) = true
      · simp [frontendStatus, h]
      · simp only [Bool.not_eq_true] at h
        simp [frontendStatus, h]
    · by_cases h : requireAuthPasses (extractJwtToken jc) uc = true
      · simp [frontendUser, h]
      · simp only [Bool.not_eq_true] at h
        simp [frontendUser, h]

/-- Witness for C10: the cookies set by a concrete successful login. -/
theorem login_cookie_discipline_witness :
    (frontendLogin ⟨[⟨1, "alice", "alice@x.com", bcryptHash "pw1234", "user"⟩], 2⟩
        (loadKeyPair "k0" "kid-1") 1000 false
        (some "alice") (some "pw1234")).setCookies =
      [{ name := "jwt_token",
         value := encodeToken (issueToken (loadKeyPair "k0" "kid-1") 1 "user" 1000),
         httpOnly := true, secure := false, sameSite := "strict",
         maxAge := 3600 * 1000 },
       { name := "username", value := "alice", httpOnly := false,
         secure := false, sameSite := "strict", maxAge := 3600 * 1000 }] :=
  (login_cookie_discipline
    ⟨[⟨1, "alice", "alice@x.com", bcryptHash "pw1234", "user"⟩], 2⟩
    (loadKeyPair "k0" "kid-1") 1000 false (some "alice") (some "pw1234")
    ⟨1, "alice", "alice@x.com", bcryptHash "pw1234", "user"⟩
    (by decide) (by decide) (by decide) (by decide)).1

end Craftista
